import Mathlib

/-!
# Verification of the quote lifecycle of `manfacquot` (quotes app)

A shallow embedding, in Lean 4, of the quote lifecycle code of the
`manfacquot` repository (branch `jules-feat-initial-auth-setup`):

* `quotes/pricing.py`     — `calculate_quote_price`
* `quotes/views.py`       — `CanCreateQuoteForDesign.has_permission`,
                            `CanUpdateQuote.has_object_permission`,
                            `QuoteListCreateView.perform_create`,
                            `QuoteDetailView.perform_update`

Python `Decimal` values are embedded as `ℚ` (every operation the code
performs on them — `+`, `*`, division by `1000`, `quantize` — is exact
at the magnitudes the code handles, so `ℚ` is a faithful model).
Django model instances are embedded as structures holding foreign keys
as numeric ids; the database is a `State` record of lists.
-/

namespace Manfacquot

/-- `quotes/models.py`: `QuoteStatus` — pending/accepted/rejected/expired. -/
inductive QuoteStatus where
  | pending
  | accepted
  | rejected
  | expired
deriving DecidableEq, Repr

/-- `designs/models.py` is not part of the sources; the statuses referenced
by `quotes/views.py` and `quotes/tests.py` are `PENDING_ANALYSIS`,
`ANALYSIS_COMPLETE` and `ORDERED`.  Modelled from the spec: design status
gates quoting (`analysis complete`) and advances to `ordered` on quote
acceptance. -/
inductive DesignStatus where
  | pendingAnalysis
  | analysisComplete
  | ordered
deriving DecidableEq, Repr

/-- `accounts/models.py` is not part of the sources. Modelled from the spec:
actors are customers or manufacturers (`UserRole`), with a separate staff
flag on the user. -/
inductive UserRole where
  | customer
  | manufacturer
deriving DecidableEq, Repr

/-- A user as seen by the quotes views: id, role, Django's `is_staff` and
`is_authenticated` flags. -/
structure User where
  id : Nat
  role : UserRole
  is_staff : Bool
  is_authenticated : Bool
deriving DecidableEq, Repr

/-- The part of a `Design` row the quotes app reads: primary key, the
owning customer (foreign key by id) and the design status. -/
structure Design where
  id : Nat
  customer : Nat
  status : DesignStatus
deriving DecidableEq, Repr

/-- `quotes/models.py`: a `Quote` row.  `design` and `manufacturer` are
foreign keys, held as ids. -/
structure Quote where
  id : Nat
  design : Nat
  manufacturer : Nat
  price_usd : ℚ
  estimated_lead_time_days : Int
  status : QuoteStatus
  notes : String
deriving DecidableEq, Repr

/-- `orders/models.py` is not part of the sources.  Modelled from the spec:
an order references the accepted quote, design, customer and manufacturer,
copies the quote's price as its total, and carries an estimated delivery
date computed as the creation date plus the quote's lead-time days
(`Order.calculate_and_set_estimated_delivery`).  Dates are modelled as
integer day numbers. -/
structure Order where
  design : Nat
  accepted_quote : Nat
  customer : Nat
  manufacturer : Nat
  order_total_price_usd : ℚ
  estimated_delivery_date : Int
deriving DecidableEq, Repr

/-- The persistent store the quotes views read and write, plus the current
date (`today`, as an integer day number) used for delivery-date
computation. -/
structure State where
  designs : List Design
  quotes : List Quote
  orders : List Order
  today : Int
deriving DecidableEq, Repr

/-! ## Pricing engine (`quotes/pricing.py`) -/

/-- The two keys `calculate_quote_price` reads from `design.geometric_data`
(`volume_cm3`, `complexity_score`), each defaulting to `0` when the key is
absent (`geometric_data.get(key, 0)` folded into the field). -/
structure GeometricData where
  volume_cm3 : ℚ
  complexity_score : ℚ
deriving DecidableEq, Repr

/-- One entry of the manufacturer's `material_properties` capability map;
`density_g_cm3` and `cost_usd_kg` default to `0` when absent. -/
structure MaterialProps where
  density_g_cm3 : ℚ
  cost_usd_kg : ℚ
deriving DecidableEq, Repr

/-- The pricing-relevant capability data of a manufacturer, after the
`.get(..., {})` / `.get(..., 0)` defaulting the code applies:
`material_properties` is a name-keyed map, the two machining factors
default to `0`, and `estimated_lead_time_base_days` is `none` when the key
is missing or holds a non-integer (both of which the code sends to the
same fallback). -/
structure PricingFactors where
  material_properties : List (String × MaterialProps)
  base_time_cost_unit : ℚ
  time_multiplier_complexity_cost_unit : ℚ
  estimated_lead_time_base_days : Option Int
deriving DecidableEq, Repr

/-- The part of a design `calculate_quote_price` reads: `geometric_data`
(`none` models a missing or empty dict, which Python treats as falsy) and
the material name. -/
structure DesignPricingInput where
  geometric_data : Option GeometricData
  material : String
deriving DecidableEq, Repr

/-- The part of a manufacturer profile `calculate_quote_price` reads. -/
structure ManufacturerPricingInput where
  pricing_factors : PricingFactors
  markup_factor : ℚ
deriving DecidableEq, Repr

/-- `Decimal.quantize(Decimal("0.01"), ROUND_HALF_UP)`: round to 2 decimal
places, ties away from zero. -/
def quantize2 (q : ℚ) : ℚ :=
  if 0 ≤ q then (⌊q * 100 + 1/2⌋ : ℚ) / 100
  else -((⌊(-q) * 100 + 1/2⌋ : ℚ) / 100)

/-- The `calculation_details` dict built by `calculate_quote_price`; a
field is `none` when the corresponding key was never written.  The code
stores currency values as `float(...)` of exact `Decimal`s; the values are
kept as `ℚ` here. -/
structure CalculationDetails where
  material_volume_cm3 : Option ℚ
  material_density_g_cm3 : Option ℚ
  material_cost_usd_kg : Option ℚ
  calculated_material_cost_usd : Option ℚ
  machining_base_time_cost_unit : Option ℚ
  design_complexity_score : Option ℚ
  machining_time_multiplier_cost_unit : Option ℚ
  calculated_machine_time_cost_units : Option ℚ
  total_price_before_markup_usd : Option ℚ
  manufacturer_markup_factor : Option ℚ
  final_total_price_usd : Option ℚ
  estimated_lead_time_days : Option Int
deriving DecidableEq, Repr

/-- The empty `calculation_details` dict. -/
def CalculationDetails.empty : CalculationDetails :=
  ⟨none, none, none, none, none, none, none, none, none, none, none, none⟩

/-- The named tuple `PricingDetails` returned by `calculate_quote_price`. -/
structure PricingDetails where
  price_usd : Option ℚ
  estimated_lead_time_days : Option Int
  calculation_details : CalculationDetails
  errors : List String
deriving DecidableEq, Repr

/-- The error (if any) contributed by the volume validation
(`pricing.py` line 35). -/
def volumeErrors (geo : GeometricData) : List String :=
  if geo.volume_cm3 ≤ 0 then ["Design volume must be a positive value."] else []

/-- The errors (if any) contributed by the material-property section
(`pricing.py` lines 48–68). -/
def materialErrors (design : DesignPricingInput) (pf : PricingFactors) : List String :=
  match pf.material_properties.lookup design.material with
  | some props =>
      (if props.density_g_cm3 ≤ 0 then
        ["Density for material '" ++ design.material ++ "' must be positive."] else [])
      ++ (if props.cost_usd_kg < 0 then
        ["Cost per kg for material '" ++ design.material ++ "' must be non-negative."] else [])
  | none =>
      ["Manufacturer does not have pricing information for material: " ++ design.material]

/-- The errors (if any) contributed by the machining-factor validation
(`pricing.py` lines 77–78). -/
def machiningErrors (pf : PricingFactors) : List String :=
  (if pf.base_time_cost_unit < 0 then ["Base time cost unit cannot be negative."] else [])
  ++ (if pf.time_multiplier_complexity_cost_unit < 0 then
      ["Time multiplier cost unit cannot be negative."] else [])

/-- The error (if any) contributed by the markup validation
(`pricing.py` line 93). -/
def markupErrors (m : ManufacturerPricingInput) : List String :=
  if m.markup_factor ≤ 0 then ["Manufacturer markup factor must be positive."] else []

/-- The lead-time determination (`pricing.py` lines 108–111): read
`estimated_lead_time_base_days`, defaulting to `7` when missing,
non-integer or negative. -/
def leadTimeDays (pf : PricingFactors) : Int :=
  match pf.estimated_lead_time_base_days with
  | some v => if v < 0 then 7 else v
  | none => 7

/-- `calculate_quote_price(design, manufacturer)` (`quotes/pricing.py`).
Faithful to the code's control flow: an empty/missing `geometric_data`
returns immediately; afterwards errors accumulate in one list, and each
monetary computation runs only under the code's `if not errors:` check,
which looks at the whole list accumulated so far (not just the current
section's errors). -/
def calculate_quote_price (design : DesignPricingInput)
    (manufacturer : ManufacturerPricingInput) : PricingDetails :=
  match design.geometric_data with
  | none =>
      { price_usd := none, estimated_lead_time_days := none,
        calculation_details := CalculationDetails.empty,
        errors := ["Design geometric data is missing or incomplete."] }
  | some geo =>
      let volume_cm3 := geo.volume_cm3
      let complexity_score := geo.complexity_score
      let pf := manufacturer.pricing_factors
      let errs1 := volumeErrors geo
      -- 2. material cost
      let errs2 := errs1 ++ materialErrors design pf
      let matComputed :=
        match pf.material_properties.lookup design.material with
        | some props =>
            if errs2 = [] then
              some (volume_cm3 * props.density_g_cm3 * (props.cost_usd_kg / 1000), props)
            else none
        | none => none
      let material_cost := match matComputed with
        | some (c, _) => c
        | none => 0
      let d1 : CalculationDetails := match matComputed with
        | some (c, props) =>
            { CalculationDetails.empty with
              material_volume_cm3 := some volume_cm3,
              material_density_g_cm3 := some props.density_g_cm3,
              material_cost_usd_kg := some props.cost_usd_kg,
              calculated_material_cost_usd := some (quantize2 c) }
        | none => CalculationDetails.empty
      -- 3. machine time cost
      let errs3 := errs2 ++ machiningErrors pf
      let machComputed : Option ℚ :=
        if errs3 = [] then
          some (pf.base_time_cost_unit + complexity_score * pf.time_multiplier_complexity_cost_unit)
        else none
      let machine_time_cost := machComputed.getD 0
      let d2 : CalculationDetails := match machComputed with
        | some c =>
            { d1 with
              machining_base_time_cost_unit := some pf.base_time_cost_unit,
              design_complexity_score := some complexity_score,
              machining_time_multiplier_cost_unit :=
                some pf.time_multiplier_complexity_cost_unit,
              calculated_machine_time_cost_units := some (quantize2 c) }
        | none => d1
      -- 4. total price
      let total_price_before_markup := material_cost + machine_time_cost
      let d3 := { d2 with
        total_price_before_markup_usd := some (quantize2 total_price_before_markup) }
      let errs4 := errs3 ++ markupErrors manufacturer
      let finalComputed : Option ℚ :=
        if errs4 = [] then
          some (quantize2 (total_price_before_markup * manufacturer.markup_factor))
        else none
      let d4 : CalculationDetails := match finalComputed with
        | some p =>
            { d3 with
              manufacturer_markup_factor := some manufacturer.markup_factor,
              final_total_price_usd := some p }
        | none => d3
      -- 5. lead time
      let lead := leadTimeDays pf
      let d5 := { d4 with estimated_lead_time_days := some lead }
      if errs4 = [] then
        { price_usd := finalComputed, estimated_lead_time_days := some lead,
          calculation_details := d5, errors := [] }
      else
        { price_usd := none, estimated_lead_time_days := none,
          calculation_details := d5, errors := errs4 }

/-! ## Authorization policy (`quotes/views.py`) -/

/-- `CanCreateQuoteForDesign.has_permission` (`views.py` lines 33–61):
the actor must be an authenticated manufacturer, the URL must carry a
design id, the design must exist, the actor must not own it, and its
status must be `ANALYSIS_COMPLETE`. -/
def canCreateQuoteForDesign (u : User) (design_id : Option Nat)
    (designs : List Design) : Bool :=
  if ¬(u.is_authenticated = true ∧ u.role = UserRole.manufacturer) then false
  else match design_id with
    | none => false
    | some did =>
      match designs.find? (fun d => decide (d.id = did)) with
      | none => false
      | some design =>
        if design.customer = u.id then false
        else if design.status ≠ DesignStatus.analysisComplete then false
        else true

/-- The shape of `request.data` as `CanUpdateQuote` inspects it:
whether a `status` key is present (and which status value it carries),
and how many other keys the dict has.  `'status' in request.data and
len(request.data) == 1` is `statusField.isSome ∧ otherFields = 0`. -/
structure ReqData where
  statusField : Option QuoteStatus
  otherFields : Nat
deriving DecidableEq, Repr

/-- `CanUpdateQuote.has_object_permission` (`views.py` lines 73–109).
Staff pass unconditionally; uninvolved users are denied; a status-only
payload is dispatched on design-owner first, then quote-creator; any
other payload is allowed only to the creator of a `PENDING` quote and
only if it does not change the status field. -/
def canUpdateQuote (u : User) (obj : Quote) (d : Design) (data : ReqData) : Bool :=
  if u.is_staff then true
  else
    let is_design_owner := d.customer = u.id
    let is_quote_creator := obj.manufacturer = u.id
    if ¬(is_design_owner ∨ is_quote_creator) then false
    else if data.statusField.isSome ∧ data.otherFields = 0 then
      let new_status := data.statusField.getD obj.status
      if is_design_owner then
        decide (obj.status = QuoteStatus.pending ∧
          (new_status = QuoteStatus.accepted ∨ new_status = QuoteStatus.rejected))
      else if is_quote_creator then
        decide (obj.status = QuoteStatus.pending ∧ new_status = QuoteStatus.expired)
      else false
    else if is_quote_creator ∧ obj.status = QuoteStatus.pending then
      if data.statusField.isSome ∧ data.statusField ≠ some obj.status then false
      else true
    else false

/-- `IsQuoteOwnerOrDesignOwnerOrAdmin.has_object_permission`
(`views.py` lines 19–22). -/
def isQuoteOwnerOrDesignOwnerOrAdmin (u : User) (obj : Quote) (d : Design) : Bool :=
  if u.is_staff then true
  else decide (obj.manufacturer = u.id ∨ d.customer = u.id)

/-! ## Quote lifecycle controller (`quotes/views.py`) -/

/-- `QuoteListCreateView.perform_create` (`views.py` lines 141–150):
404 when the design does not exist, a validation error when the same
manufacturer already has a quote for the design, otherwise persist a new
quote (status defaults to `PENDING` per `quotes/models.py`). -/
def performCreate (s : State) (design_id : Nat) (u : User) (newId : Nat)
    (price : ℚ) (lead : Int) (notes : String) : Except String State :=
  match s.designs.find? (fun d => decide (d.id = design_id)) with
  | none => Except.error "Not found."
  | some design =>
    if s.quotes.any (fun q => decide (q.design = design.id ∧ q.manufacturer = u.id)) then
      Except.error "You have already submitted a quote for this design."
    else
      Except.ok { s with quotes := s.quotes ++
        [{ id := newId, design := design.id, manufacturer := u.id,
           price_usd := price, estimated_lead_time_days := lead,
           status := QuoteStatus.pending, notes := notes }] }

/-- The validated field set of a quote update (`serializer.validated_data`):
each field is `none` when absent from the payload. -/
structure QuoteUpdate where
  newStatus : Option QuoteStatus
  newPrice : Option ℚ
  newLead : Option Int
  newNotes : Option String
deriving DecidableEq, Repr

/-- `serializer.save()` on an existing instance: overwrite exactly the
validated fields. -/
def applyQuoteUpdate (q : Quote) (u : QuoteUpdate) : Quote :=
  { q with
    status := u.newStatus.getD q.status,
    price_usd := u.newPrice.getD q.price_usd,
    estimated_lead_time_days := u.newLead.getD q.estimated_lead_time_days,
    notes := u.newNotes.getD q.notes }

/-- `QuoteDetailView.perform_update` (`views.py` lines 178–252).
`inst` is the loaded quote instance (`serializer.instance`).  The quote
update is saved first; then, exactly on the edge `original ≠ ACCEPTED ∧
new = ACCEPTED`, the acceptance cascade runs atomically: abort if an
order for this quote already exists (`hasattr(updated_quote,
'order_created_from')`), otherwise create the order (delivery date
modelled from the spec as creation date + lead-time days, standing in for
the out-of-repo `Order.calculate_and_set_estimated_delivery`), advance
the design to `ORDERED` if needed, and reject the design's other
`PENDING` quotes.  A failure inside the atomic block (here: the design
row being absent) rolls the block back, leaving only the saved quote
update. -/
def performUpdate (s : State) (inst : Quote) (upd : QuoteUpdate) : State :=
  let original_status := inst.status
  let new_status := upd.newStatus.getD original_status
  let updated_quote := applyQuoteUpdate inst upd
  let s1 : State :=
    { s with quotes := s.quotes.map (fun r => if r.id = inst.id then updated_quote else r) }
  if original_status ≠ QuoteStatus.accepted ∧ new_status = QuoteStatus.accepted then
    if s1.orders.any (fun o => decide (o.accepted_quote = inst.id)) then
      s1
    else
      match s1.designs.find? (fun e => decide (e.id = updated_quote.design)) with
      | none => s1
      | some d =>
        let order : Order :=
          { design := updated_quote.design,
            accepted_quote := updated_quote.id,
            customer := d.customer,
            manufacturer := updated_quote.manufacturer,
            order_total_price_usd := updated_quote.price_usd,
            estimated_delivery_date := s.today + updated_quote.estimated_lead_time_days }
        let s2 := { s1 with orders := s1.orders ++ [order] }
        let s3 :=
          if d.status ≠ DesignStatus.ordered then
            { s2 with designs := s2.designs.map (fun e =>
                if e.id = d.id then { e with status := DesignStatus.ordered } else e) }
          else s2
        { s3 with quotes := s3.quotes.map (fun r =>
            if r.design = updated_quote.design ∧ r.status = QuoteStatus.pending ∧
                r.id ≠ updated_quote.id
            then { r with status := QuoteStatus.rejected } else r) }
  else s1

/-- At most one order per quote: no two orders in the store reference the
same accepted quote. -/
def atMostOneOrderPerQuote (s : State) : Prop :=
  s.orders.Pairwise (fun a b => a.accepted_quote ≠ b.accepted_quote)

/-- At most one quote per (design, manufacturer) pair. -/
def atMostOneQuotePerPair (s : State) : Prop :=
  s.quotes.Pairwise (fun a b => ¬(a.design = b.design ∧ a.manufacturer = b.manufacturer))

/-! ## Concrete pricing inputs (spec §8, pricing example) -/

/-- The design of the spec's pricing example: volume 100 cm³, complexity
score 3, material `"Al-6061"`. -/
def examplePricingDesign : DesignPricingInput :=
  { geometric_data := some { volume_cm3 := 100, complexity_score := 3 },
    material := "Al-6061" }

/-- The manufacturer of the spec's pricing example: density 2 g/cm³, unit
cost 10 $/kg, base time cost 5, time multiplier 2, markup 1.5. -/
def examplePricingManufacturer : ManufacturerPricingInput :=
  { pricing_factors :=
      { material_properties := [("Al-6061", { density_g_cm3 := 2, cost_usd_kg := 10 })],
        base_time_cost_unit := 5,
        time_multiplier_complexity_cost_unit := 2,
        estimated_lead_time_base_days := some 12 },
    markup_factor := 3/2 }

/-- Same design but with volume 0, which fails the positive-volume check
while the material section itself is error-free. -/
def exampleZeroVolumeDesign : DesignPricingInput :=
  { geometric_data := some { volume_cm3 := 0, complexity_score := 3 },
    material := "Al-6061" }

/-! ## Pricing theorems -/

/-- Helper: `quantize2` always yields an integer number of cents. -/
theorem quantize2_cents (q : ℚ) : ∃ n : ℤ, quantize2 q = (n : ℚ) / 100 := by
  unfold quantize2
  split
  · exact ⟨⌊q * 100 + 1/2⌋, rfl⟩
  · exact ⟨-⌊(-q) * 100 + 1/2⌋, by push_cast; ring⟩

/-- Helper: the computed lead time is never negative. -/
theorem leadTimeDays_nonneg (pf : PricingFactors) : 0 ≤ leadTimeDays pf := by
  unfold leadTimeDays
  cases h : pf.estimated_lead_time_base_days with
  | none => norm_num
  | some v =>
    simp only
    split <;> omega

/-- C7: on the spec's concrete example (volume 100 cm³, density 2 g/cm³,
unit cost 10 $/kg, base time cost 5, time multiplier 2, complexity 3,
markup 1.5) the pricing function computes material cost 2.00, machine-time
cost 11.00, pre-markup subtotal 13.00, final price 19.50, and an empty
error list. -/
theorem pricing_example_values :
    (calculate_quote_price examplePricingDesign examplePricingManufacturer).calculation_details.calculated_material_cost_usd
        = some 2 ∧
    (calculate_quote_price examplePricingDesign examplePricingManufacturer).calculation_details.calculated_machine_time_cost_units
        = some 11 ∧
    (calculate_quote_price examplePricingDesign examplePricingManufacturer).calculation_details.total_price_before_markup_usd
        = some 13 ∧
    (calculate_quote_price examplePricingDesign examplePricingManufacturer).price_usd
        = some (39/2) ∧
    (calculate_quote_price examplePricingDesign examplePricingManufacturer).errors = [] := by
  refine ⟨?_, ?_, ?_, ?_, ?_⟩ <;>
  · simp only [calculate_quote_price, examplePricingDesign, examplePricingManufacturer,
      volumeErrors, materialErrors, machiningErrors, markupErrors, leadTimeDays, List.lookup,
      quantize2]
    norm_num

/-- C6 counterexample: with volume 0 (a volume-section error) and a fully
valid material entry, the material section has no validation error of its
own (`materialErrors` is empty), yet the material-cost computation is
skipped (`calculated_material_cost_usd` is never written) — so a
section's monetary computation is *not* skipped exactly when that section
itself has an error. -/
theorem pricing_skip_not_section_local :
    materialErrors exampleZeroVolumeDesign examplePricingManufacturer.pricing_factors = [] ∧
    (calculate_quote_price exampleZeroVolumeDesign examplePricingManufacturer).errors
        = ["Design volume must be a positive value."] ∧
    (calculate_quote_price exampleZeroVolumeDesign examplePricingManufacturer).calculation_details.calculated_material_cost_usd
        = none := by
  refine ⟨?_, ?_, ?_⟩ <;>
  · simp only [calculate_quote_price, exampleZeroVolumeDesign, examplePricingManufacturer,
      volumeErrors, materialErrors, machiningErrors, markupErrors, leadTimeDays, List.lookup,
      quantize2, CalculationDetails.empty]
    norm_num

/-- C6 (amended): once geometric data is present, validation errors
accumulate — the returned error list is the concatenation of the volume,
material, machining and markup section errors — and the monetary
computation of a section is skipped exactly when any validation error has
occurred up to and including that section (not only when the section
itself erred). -/
theorem pricing_errors_accumulate_and_gate_sections
    (design : DesignPricingInput) (m : ManufacturerPricingInput)
    (geo : GeometricData) (hgeo : design.geometric_data = some geo) :
    (calculate_quote_price design m).errors
        = volumeErrors geo ++ materialErrors design m.pricing_factors
          ++ machiningErrors m.pricing_factors ++ markupErrors m ∧
    ((calculate_quote_price design m).calculation_details.calculated_material_cost_usd.isSome
        ↔ volumeErrors geo ++ materialErrors design m.pricing_factors = []) ∧
    ((calculate_quote_price design m).calculation_details.calculated_machine_time_cost_units.isSome
        ↔ volumeErrors geo ++ materialErrors design m.pricing_factors
            ++ machiningErrors m.pricing_factors = []) ∧
    ((calculate_quote_price design m).price_usd.isSome
        ↔ volumeErrors geo ++ materialErrors design m.pricing_factors
            ++ machiningErrors m.pricing_factors ++ markupErrors m = []) := by
  rcases hl : m.pricing_factors.material_properties.lookup design.material with _ | props
  · by_cases hv : geo.volume_cm3 ≤ 0 <;>
    by_cases hb : m.pricing_factors.base_time_cost_unit < 0 <;>
    by_cases hm : m.pricing_factors.time_multiplier_complexity_cost_unit < 0 <;>
    by_cases hk : m.markup_factor ≤ 0 <;>
    simp [calculate_quote_price, hgeo, volumeErrors, materialErrors, machiningErrors,
      markupErrors, CalculationDetails.empty, hl, hv, hb, hm, hk]
  · by_cases hv : geo.volume_cm3 ≤ 0 <;>
    by_cases hd : props.density_g_cm3 ≤ 0 <;>
    by_cases hc : props.cost_usd_kg < 0 <;>
    by_cases hb : m.pricing_factors.base_time_cost_unit < 0 <;>
    by_cases hm : m.pricing_factors.time_multiplier_complexity_cost_unit < 0 <;>
    by_cases hk : m.markup_factor ≤ 0 <;>
    simp [calculate_quote_price, hgeo, volumeErrors, materialErrors, machiningErrors,
      markupErrors, CalculationDetails.empty, hl, hv, hd, hc, hb, hm, hk]

/-- Witness for the amended C6 theorem on a concrete input. -/
theorem pricing_errors_accumulate_and_gate_sections_witness :
    exampleZeroVolumeDesign.geometric_data
        = some { volume_cm3 := 0, complexity_score := 3 } ∧
    ((calculate_quote_price exampleZeroVolumeDesign examplePricingManufacturer).errors
        = volumeErrors { volume_cm3 := 0, complexity_score := 3 }
          ++ materialErrors exampleZeroVolumeDesign examplePricingManufacturer.pricing_factors
          ++ machiningErrors examplePricingManufacturer.pricing_factors
          ++ markupErrors examplePricingManufacturer ∧
     ((calculate_quote_price exampleZeroVolumeDesign examplePricingManufacturer).calculation_details.calculated_material_cost_usd.isSome
        ↔ volumeErrors { volume_cm3 := 0, complexity_score := 3 }
            ++ materialErrors exampleZeroVolumeDesign examplePricingManufacturer.pricing_factors = []) ∧
     ((calculate_quote_price exampleZeroVolumeDesign examplePricingManufacturer).calculation_details.calculated_machine_time_cost_units.isSome
        ↔ volumeErrors { volume_cm3 := 0, complexity_score := 3 }
            ++ materialErrors exampleZeroVolumeDesign examplePricingManufacturer.pricing_factors
            ++ machiningErrors examplePricingManufacturer.pricing_factors = []) ∧
     ((calculate_quote_price exampleZeroVolumeDesign examplePricingManufacturer).price_usd.isSome
        ↔ volumeErrors { volume_cm3 := 0, complexity_score := 3 }
            ++ materialErrors exampleZeroVolumeDesign examplePricingManufacturer.pricing_factors
            ++ machiningErrors examplePricingManufacturer.pricing_factors
            ++ markupErrors examplePricingManufacturer = [])) :=
  ⟨rfl, pricing_errors_accumulate_and_gate_sections exampleZeroVolumeDesign
    examplePricingManufacturer { volume_cm3 := 0, complexity_score := 3 } rfl⟩

/-- C10: every pricing result is in exactly one of two shapes — an empty
error list with a price that is a whole number of cents and a
non-negative lead time, or a non-empty error list with neither price nor
lead time. -/
theorem pricing_result_dichotomy (design : DesignPricingInput)
    (m : ManufacturerPricingInput) :
    ((calculate_quote_price design m).errors = [] ∧
      (∃ p, (calculate_quote_price design m).price_usd = some p ∧
        ∃ n : ℤ, p = (n : ℚ) / 100) ∧
      (∃ l, (calculate_quote_price design m).estimated_lead_time_days = some l ∧ 0 ≤ l)) ∨
    ((calculate_quote_price design m).errors ≠ [] ∧
      (calculate_quote_price design m).price_usd = none ∧
      (calculate_quote_price design m).estimated_lead_time_days = none) := by
  rcases hgeo : design.geometric_data with _ | geo
  · right
    simp [calculate_quote_price, hgeo]
  · rcases hl : m.pricing_factors.material_properties.lookup design.material with _ | props
    · by_cases hv : geo.volume_cm3 ≤ 0 <;>
      by_cases hb : m.pricing_factors.base_time_cost_unit < 0 <;>
      by_cases hm : m.pricing_factors.time_multiplier_complexity_cost_unit < 0 <;>
      by_cases hk : m.markup_factor ≤ 0 <;>
      simp [calculate_quote_price, hgeo, volumeErrors, materialErrors, machiningErrors,
        markupErrors, hl, hv, hb, hm, hk, leadTimeDays_nonneg]
    · by_cases hv : geo.volume_cm3 ≤ 0 <;>
      by_cases hd : props.density_g_cm3 ≤ 0 <;>
      by_cases hc : props.cost_usd_kg < 0 <;>
      by_cases hb : m.pricing_factors.base_time_cost_unit < 0 <;>
      by_cases hm : m.pricing_factors.time_multiplier_complexity_cost_unit < 0 <;>
      by_cases hk : m.markup_factor ≤ 0 <;>
      simp [calculate_quote_price, hgeo, volumeErrors, materialErrors, machiningErrors,
        markupErrors, hl, hv, hd, hc, hb, hm, hk, leadTimeDays_nonneg] <;>
      exact quantize2_cents _

/-! ## Authorization theorems -/

/-- C4: the quote-creation authorization check passes exactly when the
actor is an authenticated manufacturer, the design exists, the actor does
not own it, and its status is analysis-complete; in particular it fails
for every design not in analysis-complete status, and for every design
the actor owns. -/
theorem canCreate_characterization (u : User) (dio : Option Nat) (designs : List Design) :
    (canCreateQuoteForDesign u dio designs = true ↔
      (u.is_authenticated = true ∧ u.role = UserRole.manufacturer ∧
       ∃ did design, dio = some did ∧
         designs.find? (fun d => decide (d.id = did)) = some design ∧
         design.customer ≠ u.id ∧ design.status = DesignStatus.analysisComplete)) ∧
    (∀ did design, dio = some did →
      designs.find? (fun d => decide (d.id = did)) = some design →
      design.status ≠ DesignStatus.analysisComplete →
      canCreateQuoteForDesign u dio designs = false) ∧
    (∀ did design, dio = some did →
      designs.find? (fun d => decide (d.id = did)) = some design →
      design.customer = u.id →
      canCreateQuoteForDesign u dio designs = false) := by
  refine ⟨?_, ?_, ?_⟩
  · rcases dio with _ | did
    · simp [canCreateQuoteForDesign]
    · rcases hf : designs.find? (fun d => decide (d.id = did)) with _ | design
      · simp [canCreateQuoteForDesign, hf]
      · by_cases hc : design.customer = u.id <;>
        by_cases hs : design.status = DesignStatus.analysisComplete <;>
        by_cases ha : u.is_authenticated = true <;>
        by_cases hr : u.role = UserRole.manufacturer <;>
        simp [canCreateQuoteForDesign, hf, hc, hs, ha, hr]
  · rintro did design rfl hf hs
    simp [canCreateQuoteForDesign, hf, hs]
  · rintro did design rfl hf hc
    simp [canCreateQuoteForDesign, hf, hc]

/-- A customer (not staff) who owns design 10. -/
def exampleCustomer : User :=
  { id := 1, role := UserRole.customer, is_staff := false, is_authenticated := true }

/-- Design 10, owned by user 1, analysis complete. -/
def exampleDesign : Design :=
  { id := 10, customer := 1, status := DesignStatus.analysisComplete }

/-- A pending quote on design 10 by manufacturer 2. -/
def examplePendingQuote : Quote :=
  { id := 100, design := 10, manufacturer := 2, price_usd := 150,
    estimated_lead_time_days := 10, status := QuoteStatus.pending, notes := "" }

/-- C3 counterexample: the design owner may accept a pending quote with a
status-only payload, but the very same status change bundled with one
other field is denied — a mixed update is *not* governed by the same role
rule for the status field as a status-only update. -/
theorem mixed_update_breaks_role_rule :
    canUpdateQuote exampleCustomer examplePendingQuote exampleDesign
      { statusField := some QuoteStatus.accepted, otherFields := 0 } = true ∧
    canUpdateQuote exampleCustomer examplePendingQuote exampleDesign
      { statusField := some QuoteStatus.accepted, otherFields := 1 } = false := by
  decide

/-- C3 (amended): for a non-staff actor, a *status-only* update is
permitted for the design owner exactly on `pending → accepted/rejected`
and for the quote's manufacturer (when not also the owner) exactly on
`pending → expired`; but a *mixed* update that changes the status field
is always denied, whoever the actor is. -/
theorem canUpdateQuote_role_rules (u : User) (q : Quote) (d : Design)
    (ns : QuoteStatus) (k : Nat) (hstaff : u.is_staff = false) :
    (d.customer = u.id →
      (canUpdateQuote u q d { statusField := some ns, otherFields := 0 } = true ↔
        (q.status = QuoteStatus.pending ∧
          (ns = QuoteStatus.accepted ∨ ns = QuoteStatus.rejected)))) ∧
    (q.manufacturer = u.id → d.customer ≠ u.id →
      (canUpdateQuote u q d { statusField := some ns, otherFields := 0 } = true ↔
        (q.status = QuoteStatus.pending ∧ ns = QuoteStatus.expired))) ∧
    (k ≠ 0 → ns ≠ q.status →
      canUpdateQuote u q d { statusField := some ns, otherFields := k } = false) := by
  refine ⟨fun howner => ?_, fun hc hno => ?_, fun hk hns => ?_⟩
  · simp [canUpdateQuote, hstaff, howner]
  · simp [canUpdateQuote, hstaff, hc, hno]
  · by_cases hc : q.manufacturer = u.id <;>
    by_cases ho : d.customer = u.id <;>
    by_cases hp : q.status = QuoteStatus.pending <;>
    simp_all [canUpdateQuote]

/-- Witness for the amended C3 theorem at a concrete input. -/
theorem canUpdateQuote_role_rules_witness :
    exampleCustomer.is_staff = false ∧
    ((exampleDesign.customer = exampleCustomer.id →
      (canUpdateQuote exampleCustomer examplePendingQuote exampleDesign
          { statusField := some QuoteStatus.accepted, otherFields := 0 } = true ↔
        (examplePendingQuote.status = QuoteStatus.pending ∧
          (QuoteStatus.accepted = QuoteStatus.accepted ∨
            QuoteStatus.accepted = QuoteStatus.rejected)))) ∧
    (examplePendingQuote.manufacturer = exampleCustomer.id →
      exampleDesign.customer ≠ exampleCustomer.id →
      (canUpdateQuote exampleCustomer examplePendingQuote exampleDesign
          { statusField := some QuoteStatus.accepted, otherFields := 0 } = true ↔
        (examplePendingQuote.status = QuoteStatus.pending ∧
          QuoteStatus.accepted = QuoteStatus.expired))) ∧
    ((2 : Nat) ≠ 0 → QuoteStatus.accepted ≠ examplePendingQuote.status →
      canUpdateQuote exampleCustomer examplePendingQuote exampleDesign
        { statusField := some QuoteStatus.accepted, otherFields := 2 } = false)) :=
  ⟨rfl, canUpdateQuote_role_rules exampleCustomer examplePendingQuote exampleDesign
    QuoteStatus.accepted 2 rfl⟩

/-! ## Quote creation theorems -/

/-- C5: once a quote by a manufacturer for a design exists, a second
creation attempt by the same manufacturer fails with the
already-submitted validation error (and, the result being an error, no
new quote is persisted); and a successful creation preserves the
at-most-one-quote-per-(design, manufacturer) invariant. -/
theorem duplicate_quote_create_fails (s : State) (did : Nat) (u : User) (nid : Nat)
    (price : ℚ) (lead : Int) (notes : String) (design : Design)
    (hf : s.designs.find? (fun d => decide (d.id = did)) = some design) :
    ((∃ q0 ∈ s.quotes, q0.design = design.id ∧ q0.manufacturer = u.id) →
      performCreate s did u nid price lead notes
        = Except.error "You have already submitted a quote for this design.") ∧
    (∀ s', performCreate s did u nid price lead notes = Except.ok s' →
      atMostOneQuotePerPair s → atMostOneQuotePerPair s') := by
  constructor
  · rintro ⟨q0, hq0, hd, hm⟩
    have hany : (s.quotes.any fun q => decide (q.design = design.id ∧ q.manufacturer = u.id))
        = true :=
      List.any_eq_true.mpr ⟨q0, hq0, by simp [hd, hm]⟩
    simp only [performCreate, hf, hany, if_true]
  · intro s' hok hinv
    by_cases hany : (s.quotes.any
        fun q => decide (q.design = design.id ∧ q.manufacturer = u.id)) = true
    · simp only [performCreate, hf, hany, if_true] at hok
      cases hok
    · simp only [performCreate, hf, hany, if_false, Bool.false_eq_true] at hok
      cases hok
      unfold atMostOneQuotePerPair at hinv ⊢
      rw [List.pairwise_append]
      refine ⟨hinv, by simp, ?_⟩
      intro a ha b hb
      simp only [List.mem_singleton] at hb
      subst hb
      simp only [List.any_eq_true, decide_eq_true_eq] at hany
      intro hcon
      exact hany ⟨a, ha, hcon.1, hcon.2⟩

/-- C8: the duplicate pre-check never looks at the existing quote's
status: whatever status `st` the existing quote by this manufacturer for
this design has (pending, accepted, rejected or expired), the new
creation attempt fails with the duplicate error. -/
theorem duplicate_check_is_status_blind (s : State) (did : Nat) (u : User) (nid : Nat)
    (price : ℚ) (lead : Int) (notes : String) (design : Design) (q0 : Quote)
    (st : QuoteStatus)
    (hf : s.designs.find? (fun d => decide (d.id = did)) = some design)
    (hq0 : q0 ∈ s.quotes) (hst : q0.status = st)
    (hd : q0.design = design.id) (hm : q0.manufacturer = u.id) :
    performCreate s did u nid price lead notes
      = Except.error "You have already submitted a quote for this design." := by
  have hany : (s.quotes.any fun q => decide (q.design = design.id ∧ q.manufacturer = u.id))
      = true :=
    List.any_eq_true.mpr ⟨q0, hq0, by simp [hd, hm]⟩
  simp only [performCreate, hf, hany, if_true]

/-! ## Quote update / acceptance theorems -/

/-- C1: accepting a pending quote (authorized status-only update to
`accepted`) creates exactly one new order copying the quote's price,
manufacturer, the design's customer, and delivery date = acceptance date
plus the quote's lead-time days; the design ends up `ordered`; every
other pending quote of the design is rejected; and the quote itself ends
up `accepted`. -/
theorem accepting_pending_quote_cascades (s : State) (inst : Quote) (upd : QuoteUpdate)
    (d : Design) (actor : User)
    (hstatus : inst.status = QuoteStatus.pending)
    (hupd : upd = { newStatus := some QuoteStatus.accepted, newPrice := none,
                    newLead := none, newNotes := none })
    (hperm : canUpdateQuote actor inst d
      { statusField := some QuoteStatus.accepted, otherFields := 0 } = true)
    (hnoorder : ∀ o ∈ s.orders, o.accepted_quote ≠ inst.id)
    (hfind : s.designs.find? (fun e => decide (e.id = inst.design)) = some d)
    (huniq : ∀ e ∈ s.designs, e.id = inst.design → e = d) :
    (performUpdate s inst upd).orders = s.orders ++
      [{ design := inst.design, accepted_quote := inst.id, customer := d.customer,
         manufacturer := inst.manufacturer, order_total_price_usd := inst.price_usd,
         estimated_delivery_date := s.today + inst.estimated_lead_time_days }] ∧
    (∀ e ∈ (performUpdate s inst upd).designs, e.id = inst.design →
      e.status = DesignStatus.ordered) ∧
    (∀ r ∈ s.quotes, r.id ≠ inst.id → r.design = inst.design →
      r.status = QuoteStatus.pending →
      { r with status := QuoteStatus.rejected } ∈ (performUpdate s inst upd).quotes) ∧
    (∀ r ∈ (performUpdate s inst upd).quotes, r.id = inst.id →
      r.status = QuoteStatus.accepted) := by
  subst hupd
  have hany : (s.orders.any fun o => decide (o.accepted_quote = inst.id)) = false := by
    rw [List.any_eq_false]
    intro o ho
    simpa using hnoorder o ho
  have hedge : (inst.status ≠ QuoteStatus.accepted ∧
      (Option.some QuoteStatus.accepted).getD inst.status = QuoteStatus.accepted) := by
    rw [hstatus]; exact ⟨by decide, rfl⟩
  have happ : applyQuoteUpdate inst
      { newStatus := some QuoteStatus.accepted, newPrice := none,
        newLead := none, newNotes := none } = { inst with status := QuoteStatus.accepted } := by
    simp [applyQuoteUpdate]
  by_cases hds : d.status = DesignStatus.ordered
  · simp only [performUpdate, happ, hfind, hany, Bool.false_eq_true, if_false,
      if_pos hedge, hds, ne_eq, not_true_eq_false, not_false_eq_true, if_true]
    refine ⟨by trivial, ?_, ?_, ?_⟩
    · intro e he hid
      rw [huniq e he hid]
      exact hds
    · intro r hr hne hdes hpend
      refine List.mem_map.mpr ⟨r, List.mem_map.mpr ⟨r, hr, by simp [hne]⟩, ?_⟩
      simp [hdes, hpend, hne]
    · intro r hr hid
      rcases List.mem_map.mp hr with ⟨b, hb, rfl⟩
      rcases List.mem_map.mp hb with ⟨a, ha, rfl⟩
      by_cases hai : a.id = inst.id
      · simp [hai]
      · exfalso
        apply hai
        rw [if_neg hai] at hid
        split at hid <;> simpa using hid
  · simp only [performUpdate, happ, hfind, hany, Bool.false_eq_true, if_false,
      if_pos hedge, hds, ne_eq, not_false_eq_true, if_true]
    refine ⟨by trivial, ?_, ?_, ?_⟩
    · intro e he hid
      rcases List.mem_map.mp he with ⟨a, ha, rfl⟩
      by_cases hai : a.id = d.id
      · simp [hai]
      · rw [if_neg hai] at hid ⊢
        exact absurd (congrArg Design.id (huniq a ha hid)) hai
    · intro r hr hne hdes hpend
      refine List.mem_map.mpr ⟨r, List.mem_map.mpr ⟨r, hr, by simp [hne]⟩, ?_⟩
      simp [hdes, hpend, hne]
    · intro r hr hid
      rcases List.mem_map.mp hr with ⟨b, hb, rfl⟩
      rcases List.mem_map.mp hb with ⟨a, ha, rfl⟩
      by_cases hai : a.id = inst.id
      · simp [hai]
      · exfalso
        apply hai
        rw [if_neg hai] at hid
        split at hid <;> simpa using hid

/-- C2: re-sending the accept update on an already-accepted quote leaves
the order store untouched (order creation fires only on the edge from a
non-accepted status to `accepted`), and every update preserves the
at-most-one-order-per-quote invariant thanks to the
order-already-exists guard. -/
theorem accept_edge_triggered_orders_unique (s : State) (inst : Quote) (upd : QuoteUpdate) :
    (inst.status = QuoteStatus.accepted → (performUpdate s inst upd).orders = s.orders) ∧
    (atMostOneOrderPerQuote s → atMostOneOrderPerQuote (performUpdate s inst upd)) := by
  constructor
  · intro hacc
    unfold performUpdate
    rw [if_neg (by simp [hacc])]
  · intro hinv
    simp only [performUpdate]
    split
    · split
      · exact hinv
      · split
        · exact hinv
        · rename_i hcond hguard xopt dd hfind
          split <;>
          · unfold atMostOneOrderPerQuote at hinv ⊢
            simp only [List.pairwise_append]
            refine ⟨hinv, by simp, ?_⟩
            intro a ha b hb
            simp only [List.mem_singleton] at hb
            subst hb
            simp only [List.any_eq_true, decide_eq_true_eq] at hguard
            intro hcon
            exact hguard ⟨a, ha, hcon⟩
    · exact hinv

/-- C9: a staff actor passes the update permission check whatever the
quote, design and payload; and a staff-driven transition from any
non-accepted status (e.g. a rejected quote) to `accepted` runs the
order-creation cascade, producing an order for the quote. -/
theorem staff_unrestricted_and_cascade_from_any_status (u : User) (obj : Quote)
    (dz : Design) (data : ReqData) (s : State) (inst : Quote) (d : Design)
    (hstaff : u.is_staff = true)
    (hnacc : inst.status ≠ QuoteStatus.accepted)
    (hnoorder : ∀ o ∈ s.orders, o.accepted_quote ≠ inst.id)
    (hfind : s.designs.find? (fun e => decide (e.id = inst.design)) = some d) :
    canUpdateQuote u obj dz data = true ∧
    ∃ o ∈ (performUpdate s inst
        { newStatus := some QuoteStatus.accepted, newPrice := none,
          newLead := none, newNotes := none }).orders,
      o.accepted_quote = inst.id := by
  constructor
  · simp [canUpdateQuote, hstaff]
  · have hany : (s.orders.any fun o => decide (o.accepted_quote = inst.id)) = false := by
      rw [List.any_eq_false]
      intro o ho
      simpa using hnoorder o ho
    have happ : applyQuoteUpdate inst
        { newStatus := some QuoteStatus.accepted, newPrice := none,
          newLead := none, newNotes := none } = { inst with status := QuoteStatus.accepted } := by
      simp [applyQuoteUpdate]
    have hedge : (inst.status ≠ QuoteStatus.accepted ∧
        (Option.some QuoteStatus.accepted).getD inst.status = QuoteStatus.accepted) :=
      ⟨hnacc, rfl⟩
    by_cases hds : d.status = DesignStatus.ordered <;>
    · simp only [performUpdate, happ, hfind, hany, Bool.false_eq_true, if_false,
        if_pos hedge, hds, ne_eq, not_true_eq_false, not_false_eq_true, if_true]
      exact ⟨{ design := inst.design, accepted_quote := inst.id, customer := d.customer,
               manufacturer := inst.manufacturer, order_total_price_usd := inst.price_usd,
               estimated_delivery_date := s.today + inst.estimated_lead_time_days },
             by simp, rfl⟩

/-! ## Witness scenario: one design, three quotes, empty order store -/

/-- The manufacturer (user 2) who already quoted design 10. -/
def exampleManufacturer : User :=
  { id := 2, role := UserRole.manufacturer, is_staff := false, is_authenticated := true }

/-- A manufacturer (user 4) whose quote for design 10 was rejected. -/
def exampleManufacturerFour : User :=
  { id := 4, role := UserRole.manufacturer, is_staff := false, is_authenticated := true }

/-- A staff user. -/
def exampleStaff : User :=
  { id := 99, role := UserRole.customer, is_staff := true, is_authenticated := true }

/-- A second pending quote on design 10, by manufacturer 3. -/
def exampleOtherQuote : Quote :=
  { id := 101, design := 10, manufacturer := 3, price_usd := 180,
    estimated_lead_time_days := 12, status := QuoteStatus.pending, notes := "" }

/-- A rejected quote on design 10, by manufacturer 4. -/
def exampleRejectedQuote : Quote :=
  { id := 102, design := 10, manufacturer := 4, price_usd := 120,
    estimated_lead_time_days := 9, status := QuoteStatus.rejected, notes := "" }

/-- A store with design 10 and its three quotes, and no orders. -/
def exampleState : State :=
  { designs := [exampleDesign],
    quotes := [examplePendingQuote, exampleOtherQuote, exampleRejectedQuote],
    orders := [], today := 0 }

/-- The validated payload of a status-only accept PATCH. -/
def exampleAcceptUpdate : QuoteUpdate :=
  { newStatus := some QuoteStatus.accepted, newPrice := none,
    newLead := none, newNotes := none }

/-- Witness for the C5 theorem at a concrete input. -/
theorem duplicate_quote_create_fails_witness :
    exampleState.designs.find? (fun d => decide (d.id = 10)) = some exampleDesign ∧
    (((∃ q0 ∈ exampleState.quotes, q0.design = exampleDesign.id ∧
        q0.manufacturer = exampleManufacturer.id) →
      performCreate exampleState 10 exampleManufacturer 200 (200 : ℚ) 7 ""
        = Except.error "You have already submitted a quote for this design.") ∧
    (∀ s', performCreate exampleState 10 exampleManufacturer 200 (200 : ℚ) 7 ""
        = Except.ok s' →
      atMostOneQuotePerPair exampleState → atMostOneQuotePerPair s')) :=
  ⟨by decide, duplicate_quote_create_fails exampleState 10 exampleManufacturer 200
    (200 : ℚ) 7 "" exampleDesign (by decide)⟩

/-- Witness for the C8 theorem at a concrete input: the existing quote is
`rejected`, yet creation still fails with the duplicate error. -/
theorem duplicate_check_is_status_blind_witness :
    (exampleState.designs.find? (fun d => decide (d.id = 10)) = some exampleDesign ∧
     exampleRejectedQuote ∈ exampleState.quotes ∧
     exampleRejectedQuote.status = QuoteStatus.rejected ∧
     exampleRejectedQuote.design = exampleDesign.id ∧
     exampleRejectedQuote.manufacturer = exampleManufacturerFour.id) ∧
    performCreate exampleState 10 exampleManufacturerFour 201 (99 : ℚ) 5 ""
      = Except.error "You have already submitted a quote for this design." :=
  ⟨⟨by decide, by simp [exampleState], rfl, rfl, rfl⟩,
    duplicate_check_is_status_blind exampleState 10 exampleManufacturerFour 201
      (99 : ℚ) 5 "" exampleDesign exampleRejectedQuote QuoteStatus.rejected
      (by decide) (by simp [exampleState]) rfl rfl rfl⟩

/-- Witness for the C1 theorem at a concrete input. -/
theorem accepting_pending_quote_cascades_witness :
    (examplePendingQuote.status = QuoteStatus.pending ∧
     exampleAcceptUpdate = { newStatus := some QuoteStatus.accepted, newPrice := none,
                             newLead := none, newNotes := none } ∧
     canUpdateQuote exampleCustomer examplePendingQuote exampleDesign
       { statusField := some QuoteStatus.accepted, otherFields := 0 } = true ∧
     (∀ o ∈ exampleState.orders, o.accepted_quote ≠ examplePendingQuote.id) ∧
     exampleState.designs.find?
       (fun e => decide (e.id = examplePendingQuote.design)) = some exampleDesign ∧
     (∀ e ∈ exampleState.designs, e.id = examplePendingQuote.design → e = exampleDesign)) ∧
    ((performUpdate exampleState examplePendingQuote exampleAcceptUpdate).orders
        = exampleState.orders ++
          [{ design := examplePendingQuote.design,
             accepted_quote := examplePendingQuote.id,
             customer := exampleDesign.customer,
             manufacturer := examplePendingQuote.manufacturer,
             order_total_price_usd := examplePendingQuote.price_usd,
             estimated_delivery_date :=
               exampleState.today + examplePendingQuote.estimated_lead_time_days }] ∧
     (∀ e ∈ (performUpdate exampleState examplePendingQuote exampleAcceptUpdate).designs,
        e.id = examplePendingQuote.design → e.status = DesignStatus.ordered) ∧
     (∀ r ∈ exampleState.quotes, r.id ≠ examplePendingQuote.id →
        r.design = examplePendingQuote.design → r.status = QuoteStatus.pending →
        { r with status := QuoteStatus.rejected }
          ∈ (performUpdate exampleState examplePendingQuote exampleAcceptUpdate).quotes) ∧
     (∀ r ∈ (performUpdate exampleState examplePendingQuote exampleAcceptUpdate).quotes,
        r.id = examplePendingQuote.id → r.status = QuoteStatus.accepted)) :=
  ⟨⟨rfl, rfl, by decide, by simp [exampleState], by decide, by decide⟩,
    accepting_pending_quote_cascades exampleState examplePendingQuote exampleAcceptUpdate
      exampleDesign exampleCustomer rfl rfl (by decide) (by simp [exampleState])
      (by decide) (by decide)⟩

/-- Witness for the C9 theorem at a concrete input: staff bypass on an
arbitrary payload, and accepting a previously rejected quote still
creates an order for it. -/
theorem staff_unrestricted_and_cascade_witness :
    (exampleStaff.is_staff = true ∧
     exampleRejectedQuote.status ≠ QuoteStatus.accepted ∧
     (∀ o ∈ exampleState.orders, o.accepted_quote ≠ exampleRejectedQuote.id) ∧
     exampleState.designs.find?
       (fun e => decide (e.id = exampleRejectedQuote.design)) = some exampleDesign) ∧
    (canUpdateQuote exampleStaff examplePendingQuote exampleDesign
       { statusField := some QuoteStatus.pending, otherFields := 5 } = true ∧
     ∃ o ∈ (performUpdate exampleState exampleRejectedQuote
         { newStatus := some QuoteStatus.accepted, newPrice := none,
           newLead := none, newNotes := none }).orders,
       o.accepted_quote = exampleRejectedQuote.id) :=
  ⟨⟨rfl, by decide, by simp [exampleState], by decide⟩,
    staff_unrestricted_and_cascade_from_any_status exampleStaff examplePendingQuote
      exampleDesign { statusField := some QuoteStatus.pending, otherFields := 5 }
      exampleState exampleRejectedQuote exampleDesign rfl (by decide)
      (by simp [exampleState]) (by decide)⟩

end Manfacquot
